import Mathlib

/-!
Verification of the spacewar core: toroidal geometry, body physics,
collision prediction, steering, fragmentation and delivery-zone
interaction, shallowly embedded from `src/spacewar` (entities.py,
ai/utils/prediction.py, ai/utils/navigation.py, spacewar.py).

Conventions of the embedding:
* Python floats are modelled as real numbers (`ℝ`); `math.sqrt` is
  `Real.sqrt`, `math.cos`/`math.sin` are `Real.cos`/`Real.sin`.
* Python's `%` on floats (sign of the result follows the divisor) is
  `pymod a b = a - b * ⌊a / b⌋`.
* `float('inf')` for a time-to-collision is modelled as `none` in
  `Option ℝ`; a finite time is `some t`.
* A function that can raise an uncaught exception (the unguarded
  division in `predict_collision`) returns an `Option` of its result,
  with `none` for the raise; callers propagate the `none`.
* Calls to `random.uniform` / `random.randint` are modelled by passing
  the drawn values as explicit arguments; the hypotheses of theorems
  about them state the ranges the random library guarantees.
-/

noncomputable section

open Classical

/-- Game constant `SCREEN_WIDTH` from entities.py. -/
def SCREEN_WIDTH : ℝ := 1600

/-- Game constant `SCREEN_HEIGHT` from entities.py. -/
def SCREEN_HEIGHT : ℝ := 1200

/-- Ship constant `SHIP_SIZE` from entities.py. -/
def SHIP_SIZE : ℝ := 20

/-- Ship constant `SHIP_SPEED` (thrust acceleration per tick) from entities.py. -/
def SHIP_SPEED : ℝ := 0.2

/-- Ship constant `SHIP_ROTATION_SPEED` (degrees per tick) from entities.py. -/
def SHIP_ROTATION_SPEED : ℝ := 3

/-- Ship constant `SHIP_DRAG` from entities.py. -/
def SHIP_DRAG : ℝ := 0.005

/-- Ship constant `MAX_VELOCITY` from entities.py. -/
def MAX_VELOCITY : ℝ := 5

/-- Zone constant `ZONE_SIZE` from entities.py. -/
def ZONE_SIZE : ℝ := 60

/-- Zone constant `MAX_PICKUP_VELOCITY` from entities.py. -/
def MAX_PICKUP_VELOCITY : ℝ := 1.0

/-- Zone constant `ZONE_ACTIVE_TIME` (20 seconds at 60 FPS) from entities.py. -/
def ZONE_ACTIVE_TIME : ℤ := 1200

/-- Zone constant `INTERACTION_COOLDOWN` (1 second at 60 FPS) from entities.py. -/
def INTERACTION_COOLDOWN : ℕ := 60

/-- Python float modulo: `a % b` with the sign of `b` (for `b > 0` the
result lies in `[0, b)`), i.e. `a - b * floor (a / b)`. -/
def pymod (a b : ℝ) : ℝ := a - b * (Int.floor (a / b) : ℝ)

/-- Asteroid size table `ASTEROID_SIZES` from entities.py. -/
inductive SizeCategory where
  | large
  | medium
  | small
deriving DecidableEq

/-- Pixel radius of each `size_category` (`ASTEROID_SIZES`). -/
def asteroidSize : SizeCategory → ℝ
  | .large => 40
  | .medium => 20
  | .small => 10

/-- A `Ship` from entities.py, restricted to the physics- and
game-relevant fields (drawing-only fields are omitted). -/
structure Ship where
  x : ℝ
  y : ℝ
  angle : ℝ
  velocity_x : ℝ
  velocity_y : ℝ
  rotation : ℤ
  thrust : ℕ
  has_cargo : Bool
  credits : ℕ
  interaction_cooldown : ℕ

/-- An `Asteroid` from entities.py, restricted to position, velocity and
size category (visual rotation and vertex data are omitted). -/
structure Asteroid where
  x : ℝ
  y : ℝ
  velocity_x : ℝ
  velocity_y : ℝ
  size_category : SizeCategory

/-- Zone type tag (`"pickup"` / `"dropoff"` strings in the source). -/
inductive ZoneType where
  | pickup
  | dropoff
deriving DecidableEq

/-- A `DeliveryZone` from entities.py (position, type, countdown). -/
structure DeliveryZone where
  x : ℝ
  y : ℝ
  zone_type : ZoneType
  active_time : ℤ

/-- One coordinate of `Entity.check_boundary`: add the extent when the
coordinate is negative, subtract it when the coordinate is strictly
greater than the extent (note: strictly — a coordinate equal to the
extent is left unchanged). -/
def wrapCoord (p extent : ℝ) : ℝ :=
  if p < 0 then p + extent
  else if p > extent then p - extent
  else p

/-- `Entity.get_distance` from entities.py: torus distance between two
points, taking the per-axis minimum of the direct and the wrapped
separation. -/
def get_distance (x1 y1 x2 y2 : ℝ) : ℝ :=
  Real.sqrt ((min |x1 - x2| (SCREEN_WIDTH - |x1 - x2|)) ^ 2 +
             (min |y1 - y2| (SCREEN_HEIGHT - |y1 - y2|)) ^ 2)

/-- `Asteroid.update` from entities.py: ballistic position integration
followed by `check_boundary` (the visual rotation update is omitted). -/
def Asteroid.update (a : Asteroid) : Asteroid :=
  { a with
    x := wrapCoord (a.x + a.velocity_x) SCREEN_WIDTH
    y := wrapCoord (a.y + a.velocity_y) SCREEN_HEIGHT }

/-- The velocity of a ship right after the thrust step of `Ship.update`
(acceleration along the post-rotation heading, scaled by the thrust
flag), before the clamp. Only reached when `thrust` is nonzero. -/
def thrustVelocity (s : Ship) (newAngle : ℝ) : ℝ × ℝ :=
  (s.velocity_x + Real.cos (newAngle * Real.pi / 180) * SHIP_SPEED * (s.thrust : ℝ),
   s.velocity_y + Real.sin (newAngle * Real.pi / 180) * SHIP_SPEED * (s.thrust : ℝ))

/-- The clamp step of `Ship.update`: rescale the velocity to magnitude
`MAX_VELOCITY` when it exceeds `MAX_VELOCITY`. -/
def clampVelocity (v : ℝ × ℝ) : ℝ × ℝ :=
  let speed := Real.sqrt (v.1 ^ 2 + v.2 ^ 2)
  if speed > MAX_VELOCITY then
    (v.1 * (MAX_VELOCITY / speed), v.2 * (MAX_VELOCITY / speed))
  else v

/-- `Ship.update` from entities.py: rotation, thrust with clamp (the
clamp runs only inside the thrust branch), drag, position integration,
boundary wrap, cooldown decrement. -/
def Ship.update (s : Ship) : Ship :=
  let angle1 := pymod (s.angle + (s.rotation : ℝ) * SHIP_ROTATION_SPEED) 360
  let v1 := if s.thrust ≠ 0 then clampVelocity (thrustVelocity s angle1)
            else (s.velocity_x, s.velocity_y)
  let vx2 := v1.1 * (1 - SHIP_DRAG)
  let vy2 := v1.2 * (1 - SHIP_DRAG)
  { s with
    angle := angle1
    velocity_x := vx2
    velocity_y := vy2
    x := wrapCoord (s.x + vx2) SCREEN_WIDTH
    y := wrapCoord (s.y + vy2) SCREEN_HEIGHT
    interaction_cooldown :=
      if s.interaction_cooldown > 0 then s.interaction_cooldown - 1
      else s.interaction_cooldown }

/-- The wrapped horizon-ahead future position of a body used by
`predict_collision` (prediction.py lines 24-49): linear extrapolation of
one coordinate followed by the single-step wrap. -/
def futureCoord (p v : ℝ) (t : ℕ) (extent : ℝ) : ℝ :=
  wrapCoord (p + v * (t : ℝ)) extent

/-- The future torus distance computed by `predict_collision`
(prediction.py lines 52-56) between the wrapped extrapolated positions
of a ship and an asteroid. -/
def futureDistance (s : Ship) (a : Asteroid) (t : ℕ) : ℝ :=
  get_distance (futureCoord s.x s.velocity_x t SCREEN_WIDTH)
               (futureCoord s.y s.velocity_y t SCREEN_HEIGHT)
               (futureCoord a.x a.velocity_x t SCREEN_WIDTH)
               (futureCoord a.y a.velocity_y t SCREEN_HEIGHT)

/-- `predict_collision` from prediction.py. Returns `some` of the
`(will_collide, time_to_collision)` pair — the inner `none` models the
`float('inf')` returned when no collision is predicted — while the outer
`none` models the uncaught `ZeroDivisionError` the source raises when
the division on line 73 runs (relative speed not below 0.01) with a zero
denominator `current_distance - (ship.size + asteroid.size)`. -/
def predict_collision (s : Ship) (a : Asteroid) (t : ℕ) :
    Option (Bool × Option ℝ) :=
  let future_distance := futureDistance s a t
  if future_distance < SHIP_SIZE + asteroidSize a.size_category + 10 then
    let rel_vel_x := a.velocity_x - s.velocity_x
    let rel_vel_y := a.velocity_y - s.velocity_y
    let rel_velocity := Real.sqrt (rel_vel_x ^ 2 + rel_vel_y ^ 2)
    let current_distance := get_distance s.x s.y a.x a.y
    if rel_velocity < 0.01 then some (true, some (t : ℝ))
    else if current_distance - (SHIP_SIZE + asteroidSize a.size_category) = 0 then
      none
    else some (true, some ((t : ℝ) * ((current_distance - future_distance) /
      (current_distance - (SHIP_SIZE + asteroidSize a.size_category)))))
  else
    some (false, none)

/-- Comparison on modelled time-to-collision values (`none` = `inf`),
matching Python float ordering for the sort key in
`find_dangerous_asteroids`. -/
def ttcLe : Option ℝ → Option ℝ → Bool
  | some u, some v => decide (u ≤ v)
  | some _, none => true
  | none, some _ => false
  | none, none => true

/-- The asteroid loop of `find_dangerous_asteroids`: skip asteroids
beyond the scan distance (no prediction even attempted), otherwise call
`predict_collision`, keeping the triple when it predicts a collision.
An uncaught `ZeroDivisionError` from any call (the `none` case) aborts
the whole scan, as the source propagates the exception. -/
def scanAsteroids (s : Ship) (max_distance : ℝ) (t : ℕ) :
    List Asteroid → Option (List (Asteroid × ℝ × Option ℝ))
  | [] => some []
  | a :: rest =>
      let distance := get_distance s.x s.y a.x a.y
      if distance > max_distance then scanAsteroids s max_distance t rest
      else
        match predict_collision s a t with
        | none => none
        | some r =>
            match scanAsteroids s max_distance t rest with
            | none => none
            | some l => some (if r.1 then (a, distance, r.2) :: l else l)

/-- `find_dangerous_asteroids` from prediction.py: filter asteroids by
torus distance, keep those predicted to collide, and stable-sort the
`(asteroid, distance, time_to_collision)` triples ascending by
time-to-collision (Python's `list.sort` is a stable sort); `none` models
the propagated `ZeroDivisionError` from `predict_collision`. -/
def find_dangerous_asteroids (s : Ship) (asteroids : List Asteroid)
    (max_distance : ℝ) (t : ℕ) : Option (List (Asteroid × ℝ × Option ℝ)) :=
  (scanAsteroids s max_distance t asteroids).map
    (fun dangerous => dangerous.mergeSort (fun u v => ttcLe u.2.2 v.2.2))

/-- `math.atan2` modelled piecewise via `Real.arctan` (radians). -/
def atan2 (y x : ℝ) : ℝ :=
  if x > 0 then Real.arctan (y / x)
  else if x < 0 ∧ 0 ≤ y then Real.arctan (y / x) + Real.pi
  else if x < 0 then Real.arctan (y / x) - Real.pi
  else if y > 0 then Real.pi / 2
  else if y < 0 then -(Real.pi / 2)
  else 0

/-- `get_angle_to_target` from navigation.py: degrees in `[0, 360)`. -/
def get_angle_to_target (s : Ship) (target_x target_y : ℝ) : ℝ :=
  pymod (atan2 (target_y - s.y) (target_x - s.x) * 180 / Real.pi) 360

/-- The normalized angular difference used by
`get_steering_direction`: `(target - current + 180) % 360 - 180`,
landing in `[-180, 180)`. -/
def angleDiff (current_angle target_angle : ℝ) : ℝ :=
  pymod (target_angle - current_angle + 180) 360 - 180

/-- `get_steering_direction` from navigation.py: 0 within a 5° tolerance,
else the sign of the normalized difference. -/
def get_steering_direction (current_angle target_angle : ℝ) : ℤ :=
  let angle_diff := angleDiff current_angle target_angle
  if |angle_diff| < 5 then 0
  else if angle_diff > 0 then 1
  else -1

/-- The internal distance computed by `calculate_approach_vector`
(navigation.py lines 68-70): per-axis `min(|d|, 360 - |d|)` with a fixed
extent of 360 on both axes. -/
def approach_distance (sx sy target_x target_y : ℝ) : ℝ :=
  Real.sqrt ((min |sx - target_x| (360 - |sx - target_x|)) ^ 2 +
             (min |sy - target_y| (360 - |sy - target_y|)) ^ 2)

/-- `calculate_approach_vector` from navigation.py: returns the
`(target_angle, thrust)` pair. -/
def calculate_approach_vector (s : Ship) (target_x target_y : ℝ)
    (desired_speed : ℝ) : ℝ × ℕ :=
  let current_speed := Real.sqrt (s.velocity_x ^ 2 + s.velocity_y ^ 2)
  let angle_to_target := get_angle_to_target s target_x target_y
  let distance := approach_distance s.x s.y target_x target_y
  if current_speed > desired_speed * 1.2 then
    let movement_angle := pymod (atan2 s.velocity_y s.velocity_x * 180 / Real.pi) 360
    let braking_angle := pymod (movement_angle + 180) 360
    let angle_diff := |pymod (braking_angle - s.angle + 180) 360 - 180|
    if angle_diff < 30 then (s.angle, 1)
    else (braking_angle, 0)
  else if distance < 50 ∧ current_speed > desired_speed then
    (angle_to_target, 0)
  else
    (angle_to_target, if current_speed < desired_speed then 1 else 0)

/-- `DeliveryZone.update` from entities.py: decrement the countdown. -/
def DeliveryZone.update (z : DeliveryZone) : DeliveryZone :=
  { z with active_time := z.active_time - 1 }

/-- `DeliveryZone.is_expired` from entities.py. -/
def DeliveryZone.is_expired (z : DeliveryZone) : Bool :=
  decide (z.active_time ≤ 0)

/-- `DeliveryZone.check_ship_interaction` from entities.py. Returns the
Python boolean result together with the (possibly mutated) ship. -/
def check_ship_interaction (z : DeliveryZone) (s : Ship) : Bool × Ship :=
  if ¬ (get_distance z.x z.y s.x s.y < ZONE_SIZE + SHIP_SIZE) then (false, s)
  else if Real.sqrt (s.velocity_x ^ 2 + s.velocity_y ^ 2) > MAX_PICKUP_VELOCITY then
    (false, s)
  else if s.interaction_cooldown > 0 then (false, s)
  else if z.zone_type = ZoneType.pickup ∧ s.has_cargo = false then
    (true, { s with has_cargo := true, interaction_cooldown := INTERACTION_COOLDOWN })
  else if z.zone_type = ZoneType.dropoff ∧ s.has_cargo = true then
    (true, { s with has_cargo := false, credits := s.credits + 1,
                    interaction_cooldown := INTERACTION_COOLDOWN })
  else (false, s)

/-- One pass of the ship loop inside `update_delivery_zones`
(spacewar.py): run `check_ship_interaction` of one zone over every
non-destroyed ship in order, threading the mutated ships through. The
`destroyed` flag is threaded alongside each ship. -/
def interactShips (z : DeliveryZone) : List (Ship × Bool) → List (Ship × Bool)
  | [] => []
  | (s, destroyed) :: rest =>
      let s' := if destroyed then s else (check_ship_interaction z s).2
      (s', destroyed) :: interactShips z rest

/-- `update_delivery_zones` from spacewar.py: for each zone (iterating
over a copy of the list), decrement its countdown, drop it from the
surviving list when expired, and then — expired or not — run the ship
interaction check for every ship against it. Returns the surviving
zones and the final ships. -/
def update_delivery_zones : List DeliveryZone → List (Ship × Bool) →
    List DeliveryZone × List (Ship × Bool)
  | [], ships => ([], ships)
  | z :: rest, ships =>
      let z' := z.update
      let ships' := interactShips z' ships
      let p := update_delivery_zones rest ships'
      if z'.is_expired then p else (z' :: p.1, p.2)

/-- One random draw consumed per fragment in `Asteroid.break_apart`:
the two `random.uniform(-size/2, size/2)` position offsets and the two
`random.uniform(-0.5, 0.5)` velocity perturbations. -/
structure FragmentDraw where
  offset_x : ℝ
  offset_y : ℝ
  jitter_x : ℝ
  jitter_y : ℝ

/-- `Asteroid.break_apart` from entities.py, with the random draws made
explicit: `small` parents produce no children; otherwise one child per
draw (the source draws `num_pieces = random.randint(2, 3)` and loops
that many times), each at the parent position plus its offset, of the
next-smaller size category, with velocity `0.8 * parent + jitter`. -/
def Asteroid.break_apart (a : Asteroid) (draws : List FragmentDraw) : List Asteroid :=
  if a.size_category = SizeCategory.small then []
  else
    let new_size := if a.size_category = SizeCategory.medium
      then SizeCategory.small else SizeCategory.medium
    draws.map (fun d =>
      { x := a.x + d.offset_x
        y := a.y + d.offset_y
        velocity_x := a.velocity_x * 0.8 + d.jitter_x
        velocity_y := a.velocity_y * 0.8 + d.jitter_y
        size_category := new_size })

/-- Strict ordering rank of size categories (small < medium < large). -/
def catRank : SizeCategory → ℕ
  | .small => 0
  | .medium => 1
  | .large => 2

end

/-- Helper: for `0 ≤ r < b`, `pymod r b = r`. -/
theorem pymod_eq_self {r b : ℝ} (h0 : 0 ≤ r) (h1 : r < b) : pymod r b = r := by
  have hb : 0 < b := lt_of_le_of_lt h0 h1
  have : Int.floor (r / b) = 0 := by
    rw [Int.floor_eq_zero_iff]
    constructor
    · positivity
    · rw [div_lt_one hb]; exact h1
  simp [pymod, this]

/-- Helper: `pymod` is invariant under adding an integer multiple of the
modulus to the argument. -/
theorem pymod_add_int_mul (a b : ℝ) (k : ℤ) : pymod (a + b * k) b = pymod a b := by
  rcases eq_or_ne b 0 with hb | hb
  · simp [pymod, hb]
  · unfold pymod
    have : (a + b * k) / b = a / b + k := by
      field_simp
      ring
    rw [this, Int.floor_add_int]
    push_cast
    ring

/-- Helper: decomposition of an argument by its `pymod`. -/
theorem pymod_decompose (a b : ℝ) :
    a = pymod a b + b * (Int.floor (a / b) : ℝ) := by
  unfold pymod; ring

/-- Helper: range of `pymod` for a positive modulus. -/
theorem pymod_bounds {b : ℝ} (hb : 0 < b) (a : ℝ) :
    0 ≤ pymod a b ∧ pymod a b < b := by
  constructor
  · have h := Int.floor_le (a / b)
    have : (Int.floor (a / b) : ℝ) * b ≤ a := by
      rw [← le_div_iff₀ hb]; exact h
    unfold pymod; nlinarith
  · have h := Int.lt_floor_add_one (a / b)
    have : a < ((Int.floor (a / b) : ℝ) + 1) * b := by
      rw [← div_lt_iff₀ hb]; exact_mod_cast h
    unfold pymod; nlinarith

/-- Helper: a coordinate whose pre-wrap value lies within one extent of
the in-bounds band is wrapped into the closed interval `[0, extent]`
(the upper end is attainable because the wrap tests `p > extent`
strictly). -/
theorem wrapCoord_mem {p e : ℝ} (h1 : -e ≤ p) (h2 : p ≤ 2 * e) :
    0 ≤ wrapCoord p e ∧ wrapCoord p e ≤ e := by
  unfold wrapCoord
  split_ifs <;> constructor <;> linarith

/-- Helper: the velocity stored by `Ship.update` is the post-clamp (or
unchanged, without thrust) velocity times the drag factor. -/
theorem ship_update_velocity (s : Ship) :
    s.update.velocity_x =
      (if s.thrust ≠ 0 then
          clampVelocity (thrustVelocity s
            (pymod (s.angle + (s.rotation : ℝ) * SHIP_ROTATION_SPEED) 360))
        else (s.velocity_x, s.velocity_y)).1 * (1 - SHIP_DRAG) ∧
    s.update.velocity_y =
      (if s.thrust ≠ 0 then
          clampVelocity (thrustVelocity s
            (pymod (s.angle + (s.rotation : ℝ) * SHIP_ROTATION_SPEED) 360))
        else (s.velocity_x, s.velocity_y)).2 * (1 - SHIP_DRAG) := by
  exact ⟨rfl, rfl⟩

/-- C4, corrected: the wrap step adds the extent when a coordinate is
below 0 and subtracts it only when the coordinate is *strictly greater*
than the extent, so for every moving body — asteroid or ship — an
update whose per-axis displacement is at most one extent lands the
position in the closed box `[0, SCREEN_WIDTH] × [0, SCREEN_HEIGHT]`;
the value `extent` itself is kept, not reduced to 0 (delivery zones
never move: `DeliveryZone.update` only decrements the countdown, so
their position is wherever they were spawned). -/
theorem body_update_wrap_bounds :
    (∀ a : Asteroid,
      0 ≤ a.x → a.x ≤ SCREEN_WIDTH → 0 ≤ a.y → a.y ≤ SCREEN_HEIGHT →
      |a.velocity_x| ≤ SCREEN_WIDTH → |a.velocity_y| ≤ SCREEN_HEIGHT →
      (0 ≤ a.update.x ∧ a.update.x ≤ SCREEN_WIDTH) ∧
      (0 ≤ a.update.y ∧ a.update.y ≤ SCREEN_HEIGHT) ∧
      (a.x + a.velocity_x < 0 →
        a.update.x = a.x + a.velocity_x + SCREEN_WIDTH) ∧
      (a.x + a.velocity_x > SCREEN_WIDTH →
        a.update.x = a.x + a.velocity_x - SCREEN_WIDTH)) ∧
    (∀ s : Ship,
      0 ≤ s.x → s.x ≤ SCREEN_WIDTH → 0 ≤ s.y → s.y ≤ SCREEN_HEIGHT →
      |s.update.velocity_x| ≤ SCREEN_WIDTH →
      |s.update.velocity_y| ≤ SCREEN_HEIGHT →
      (0 ≤ s.update.x ∧ s.update.x ≤ SCREEN_WIDTH) ∧
      (0 ≤ s.update.y ∧ s.update.y ≤ SCREEN_HEIGHT)) := by
  constructor
  · intro a hx0 hx1 hy0 hy1 hvx hvy
    obtain ⟨hvx1, hvx2⟩ := abs_le.mp hvx
    obtain ⟨hvy1, hvy2⟩ := abs_le.mp hvy
    refine ⟨?_, ?_, ?_, ?_⟩
    · exact wrapCoord_mem (by linarith) (by linarith)
    · exact wrapCoord_mem (by linarith) (by linarith)
    · intro h
      show wrapCoord (a.x + a.velocity_x) SCREEN_WIDTH = _
      unfold wrapCoord
      rw [if_pos h]
    · intro h
      show wrapCoord (a.x + a.velocity_x) SCREEN_WIDTH = _
      unfold wrapCoord
      rw [if_neg (by linarith [show (0:ℝ) < SCREEN_WIDTH by norm_num [SCREEN_WIDTH]]),
        if_pos h]
  · intro s hx0 hx1 hy0 hy1 hvx hvy
    obtain ⟨hvx1, hvx2⟩ := abs_le.mp hvx
    obtain ⟨hvy1, hvy2⟩ := abs_le.mp hvy
    have hex : s.update.x = wrapCoord (s.x + s.update.velocity_x) SCREEN_WIDTH := rfl
    have hey : s.update.y = wrapCoord (s.y + s.update.velocity_y) SCREEN_HEIGHT := rfl
    rw [hex, hey]
    exact ⟨wrapCoord_mem (by linarith) (by linarith),
      wrapCoord_mem (by linarith) (by linarith)⟩

/-- C4 witness: the wrap-bounds theorem applied to a concrete asteroid
and a concrete coasting ship (thrust 0) whose x coordinates wrap past
the right edge. -/
theorem body_update_wrap_bounds_witness :
    (0 ≤ (Asteroid.update ⟨1590, 100, 20, -4, SizeCategory.small⟩).x ∧
      (Asteroid.update ⟨1590, 100, 20, -4, SizeCategory.small⟩).x ≤ SCREEN_WIDTH) ∧
    (0 ≤ (Ship.update ⟨1590, 100, 0, 20, -4, 0, 0, false, 0, 0⟩).x ∧
      (Ship.update ⟨1590, 100, 0, 20, -4, 0, 0, false, 0, 0⟩).x ≤ SCREEN_WIDTH) := by
  have ha := body_update_wrap_bounds.1 ⟨1590, 100, 20, -4, SizeCategory.small⟩
    (by norm_num) (by norm_num [SCREEN_WIDTH]) (by norm_num)
    (by norm_num [SCREEN_HEIGHT]) (by rw [abs_of_nonneg] <;> norm_num [SCREEN_WIDTH])
    (by rw [abs_of_nonpos] <;> norm_num [SCREEN_HEIGHT])
  obtain ⟨hvx, hvy⟩ := ship_update_velocity ⟨1590, 100, 0, 20, -4, 0, 0, false, 0, 0⟩
  rw [if_neg (by norm_num)] at hvx hvy
  have hs := body_update_wrap_bounds.2 ⟨1590, 100, 0, 20, -4, 0, 0, false, 0, 0⟩
    (by norm_num) (by norm_num [SCREEN_WIDTH]) (by norm_num)
    (by norm_num [SCREEN_HEIGHT])
    (by rw [hvx, abs_of_nonneg] <;> norm_num [SHIP_DRAG, SCREEN_WIDTH])
    (by rw [hvy, abs_of_nonpos] <;> norm_num [SHIP_DRAG, SCREEN_HEIGHT])
  exact ⟨ha.1, hs.1⟩

/-- C4 counterexample: an asteroid at x = 1598 moving 2 to the right
ends the tick at x = 1600 = SCREEN_WIDTH exactly, which the wrap leaves
unchanged, violating the claimed strict invariant `x < SCREEN_WIDTH`. -/
theorem asteroid_update_wrap_at_edge :
    (Asteroid.update ⟨1598, 100, 2, 0, SizeCategory.large⟩).x = 1600 ∧
    ¬ (Asteroid.update ⟨1598, 100, 2, 0, SizeCategory.large⟩).x < SCREEN_WIDTH := by
  have hx : (Asteroid.update ⟨1598, 100, 2, 0, SizeCategory.large⟩).x = 1600 := by
    show wrapCoord (1598 + 2) SCREEN_WIDTH = 1600
    unfold wrapCoord SCREEN_WIDTH
    norm_num
  exact ⟨hx, by rw [hx]; norm_num [SCREEN_WIDTH]⟩

/-- Helper: the per-axis wrapped separation is nonnegative and at most
half the extent when the raw separation is at most the extent. -/
theorem axis_min_bound {d e : ℝ} (h : |d| ≤ e) :
    0 ≤ min |d| (e - |d|) ∧ min |d| (e - |d|) ≤ e / 2 := by
  constructor
  · exact le_min (abs_nonneg _) (by linarith)
  · rcases le_total |d| (e / 2) with h' | h'
    · exact le_trans (min_le_left _ _) h'
    · exact le_trans (min_le_right _ _) (by linarith)

/-- C9: torus distance is symmetric, and for in-bounds positions it
never exceeds `sqrt ((W/2)² + (H/2)²)` (= 1000 for the 1600×1200
screen). -/
theorem get_distance_symm_and_bound (x1 y1 x2 y2 : ℝ)
    (hx1 : 0 ≤ x1) (hx1' : x1 ≤ SCREEN_WIDTH)
    (hy1 : 0 ≤ y1) (hy1' : y1 ≤ SCREEN_HEIGHT)
    (hx2 : 0 ≤ x2) (hx2' : x2 ≤ SCREEN_WIDTH)
    (hy2 : 0 ≤ y2) (hy2' : y2 ≤ SCREEN_HEIGHT) :
    get_distance x1 y1 x2 y2 = get_distance x2 y2 x1 y1 ∧
    get_distance x1 y1 x2 y2 ≤
      Real.sqrt ((SCREEN_WIDTH / 2) ^ 2 + (SCREEN_HEIGHT / 2) ^ 2) := by
  constructor
  · unfold get_distance
    rw [abs_sub_comm x1 x2, abs_sub_comm y1 y2]
  · unfold get_distance
    apply Real.sqrt_le_sqrt
    have hdx : |x1 - x2| ≤ SCREEN_WIDTH := abs_le.mpr ⟨by linarith, by linarith⟩
    have hdy : |y1 - y2| ≤ SCREEN_HEIGHT := abs_le.mpr ⟨by linarith, by linarith⟩
    obtain ⟨hdx0, hdx1⟩ := axis_min_bound hdx
    obtain ⟨hdy0, hdy1⟩ := axis_min_bound hdy
    have h1 : (min |x1 - x2| (SCREEN_WIDTH - |x1 - x2|)) ^ 2 ≤ (SCREEN_WIDTH / 2) ^ 2 :=
      pow_le_pow_left₀ hdx0 hdx1 2
    have h2 : (min |y1 - y2| (SCREEN_HEIGHT - |y1 - y2|)) ^ 2 ≤ (SCREEN_HEIGHT / 2) ^ 2 :=
      pow_le_pow_left₀ hdy0 hdy1 2
    linarith

/-- C9 witness: the symmetry-and-bound theorem applied to the concrete
in-bounds positions (100, 100) and (200, 300). -/
theorem get_distance_symm_and_bound_witness :
    get_distance 100 100 200 300 = get_distance 200 300 100 100 ∧
    get_distance 100 100 200 300 ≤
      Real.sqrt ((SCREEN_WIDTH / 2) ^ 2 + (SCREEN_HEIGHT / 2) ^ 2) :=
  get_distance_symm_and_bound 100 100 200 300
    (by norm_num) (by norm_num [SCREEN_WIDTH]) (by norm_num) (by norm_num [SCREEN_HEIGHT])
    (by norm_num) (by norm_num [SCREEN_WIDTH]) (by norm_num) (by norm_num [SCREEN_HEIGHT])

/-- C5: `check_ship_interaction` succeeds (and transacts) iff the ship
overlaps the zone by torus distance, its speed is at most
`MAX_PICKUP_VELOCITY`, its cooldown is 0, and the zone type matches the
cargo state; on failure the ship is unchanged; on success a pickup sets
`has_cargo` (credits unchanged) and a dropoff clears it and increments
`credits`, both setting the cooldown. In particular a carrying ship can
never succeed at a pickup and an empty ship never at a dropoff. -/
theorem check_ship_interaction_correct (z : DeliveryZone) (s : Ship) :
    ((check_ship_interaction z s).1 = true ↔
      (get_distance z.x z.y s.x s.y < ZONE_SIZE + SHIP_SIZE ∧
       Real.sqrt (s.velocity_x ^ 2 + s.velocity_y ^ 2) ≤ MAX_PICKUP_VELOCITY ∧
       s.interaction_cooldown = 0 ∧
       ((z.zone_type = ZoneType.pickup ∧ s.has_cargo = false) ∨
        (z.zone_type = ZoneType.dropoff ∧ s.has_cargo = true)))) ∧
    ((check_ship_interaction z s).1 = false → (check_ship_interaction z s).2 = s) ∧
    ((check_ship_interaction z s).1 = true → z.zone_type = ZoneType.pickup →
      (check_ship_interaction z s).2 =
        { s with has_cargo := true, interaction_cooldown := INTERACTION_COOLDOWN }) ∧
    ((check_ship_interaction z s).1 = true → z.zone_type = ZoneType.dropoff →
      (check_ship_interaction z s).2 =
        { s with has_cargo := false, credits := s.credits + 1,
                 interaction_cooldown := INTERACTION_COOLDOWN }) := by
  unfold check_ship_interaction
  by_cases h1 : get_distance z.x z.y s.x s.y < ZONE_SIZE + SHIP_SIZE
  · rw [if_neg (not_not_intro h1)]
    by_cases h2 : Real.sqrt (s.velocity_x ^ 2 + s.velocity_y ^ 2) > MAX_PICKUP_VELOCITY
    · rw [if_pos h2]
      exact ⟨iff_of_false (by simp) (fun ⟨_, hs, _, _⟩ => absurd h2 (not_lt.mpr hs)),
        fun _ => rfl, fun h => absurd h (by simp), fun h => absurd h (by simp)⟩
    · rw [if_neg h2]
      by_cases h3 : s.interaction_cooldown > 0
      · rw [if_pos h3]
        exact ⟨iff_of_false (by simp) (fun ⟨_, _, hc, _⟩ => by omega),
          fun _ => rfl, fun h => absurd h (by simp), fun h => absurd h (by simp)⟩
      · rw [if_neg h3]
        by_cases h4 : z.zone_type = ZoneType.pickup ∧ s.has_cargo = false
        · rw [if_pos h4]
          refine ⟨iff_of_true rfl ⟨h1, not_lt.mp h2, by omega, Or.inl h4⟩,
            fun h => absurd h (by simp), fun _ _ => rfl, fun _ hd => ?_⟩
          exact absurd (h4.1.symm.trans hd) (by decide)
        · rw [if_neg h4]
          by_cases h5 : z.zone_type = ZoneType.dropoff ∧ s.has_cargo = true
          · rw [if_pos h5]
            refine ⟨iff_of_true rfl ⟨h1, not_lt.mp h2, by omega, Or.inr h5⟩,
              fun h => absurd h (by simp), fun _ hp => ?_, fun _ _ => rfl⟩
            exact absurd (h5.1.symm.trans hp) (by decide)
          · rw [if_neg h5]
            exact ⟨iff_of_false (by simp)
                (fun ⟨_, _, _, ht⟩ => ht.elim (fun hh => h4 hh) (fun hh => h5 hh)),
              fun _ => rfl, fun h => absurd h (by simp), fun h => absurd h (by simp)⟩
  · rw [if_pos h1]
    exact ⟨iff_of_false (by simp) (fun ⟨hd, _, _, _⟩ => h1 hd),
      fun _ => rfl, fun h => absurd h (by simp), fun h => absurd h (by simp)⟩

/-- C5 witness: the interaction theorem applied to a concrete slow,
cooldown-free, cargo-free ship inside a concrete pickup zone. -/
theorem check_ship_interaction_correct_witness :
    (check_ship_interaction ⟨100, 100, ZoneType.pickup, 600⟩
      ⟨110, 100, 0, 0, 0, 0, 0, false, 0, 0⟩).1 = true :=
  (check_ship_interaction_correct ⟨100, 100, ZoneType.pickup, 600⟩
      ⟨110, 100, 0, 0, 0, 0, 0, false, 0, 0⟩).1.mpr
    ⟨by
      unfold get_distance
      rw [show ZONE_SIZE + SHIP_SIZE = (80:ℝ) by norm_num [ZONE_SIZE, SHIP_SIZE],
        Real.sqrt_lt' (by norm_num)]
      norm_num [SCREEN_WIDTH, SCREEN_HEIGHT],
     by
      simp only []
      rw [show (0:ℝ)^2 + (0:ℝ)^2 = 0 by norm_num, Real.sqrt_zero]
      norm_num [MAX_PICKUP_VELOCITY],
     rfl,
     Or.inl ⟨rfl, rfl⟩⟩

/-- Helper: scaling both velocity components by a nonnegative factor
scales the speed by that factor. -/
theorem speed_scale (a b c : ℝ) (hc : 0 ≤ c) :
    Real.sqrt ((a * c) ^ 2 + (b * c) ^ 2) = c * Real.sqrt (a ^ 2 + b ^ 2) := by
  rw [show (a * c) ^ 2 + (b * c) ^ 2 = c ^ 2 * (a ^ 2 + b ^ 2) by ring,
    Real.sqrt_mul (sq_nonneg c), Real.sqrt_sq hc]

/-- Helper: when the incoming speed exceeds `MAX_VELOCITY`, the clamp
step rescales the velocity to magnitude exactly `MAX_VELOCITY`. -/
theorem clampVelocity_speed {v : ℝ × ℝ}
    (h : Real.sqrt (v.1 ^ 2 + v.2 ^ 2) > MAX_VELOCITY) :
    Real.sqrt ((clampVelocity v).1 ^ 2 + (clampVelocity v).2 ^ 2) = MAX_VELOCITY := by
  have hS : (0:ℝ) < Real.sqrt (v.1 ^ 2 + v.2 ^ 2) :=
    lt_trans (by norm_num [MAX_VELOCITY]) h
  unfold clampVelocity
  rw [if_pos h, speed_scale _ _ _
    (div_nonneg (by norm_num [MAX_VELOCITY]) (Real.sqrt_nonneg _))]
  field_simp

/-- C3, corrected: the clamp runs only in the thrust branch. When the
ship is thrusting and the post-thrust speed exceeds `MAX_VELOCITY`, the
pre-drag velocity is rescaled to magnitude exactly `MAX_VELOCITY` and
the post-drag speed of the updated ship is
`MAX_VELOCITY * (1 - SHIP_DRAG) ≤ MAX_VELOCITY`; without thrust no
clamping is performed (see the counterexample theorem). -/
theorem ship_update_clamp (s : Ship) (ht : s.thrust ≠ 0)
    (hv : Real.sqrt ((thrustVelocity s
        (pymod (s.angle + (s.rotation : ℝ) * SHIP_ROTATION_SPEED) 360)).1 ^ 2 +
      (thrustVelocity s
        (pymod (s.angle + (s.rotation : ℝ) * SHIP_ROTATION_SPEED) 360)).2 ^ 2) >
      MAX_VELOCITY) :
    Real.sqrt ((clampVelocity (thrustVelocity s
        (pymod (s.angle + (s.rotation : ℝ) * SHIP_ROTATION_SPEED) 360))).1 ^ 2 +
      (clampVelocity (thrustVelocity s
        (pymod (s.angle + (s.rotation : ℝ) * SHIP_ROTATION_SPEED) 360))).2 ^ 2) =
      MAX_VELOCITY ∧
    Real.sqrt (s.update.velocity_x ^ 2 + s.update.velocity_y ^ 2) =
      MAX_VELOCITY * (1 - SHIP_DRAG) ∧
    Real.sqrt (s.update.velocity_x ^ 2 + s.update.velocity_y ^ 2) ≤ MAX_VELOCITY := by
  have hc := clampVelocity_speed hv
  refine ⟨hc, ?_, ?_⟩
  · obtain ⟨hx, hy⟩ := ship_update_velocity s
    rw [hx, hy, if_pos ht, speed_scale _ _ _ (by norm_num [SHIP_DRAG]), hc]
    ring
  · obtain ⟨hx, hy⟩ := ship_update_velocity s
    rw [hx, hy, if_pos ht, speed_scale _ _ _ (by norm_num [SHIP_DRAG]), hc]
    norm_num [MAX_VELOCITY, SHIP_DRAG]

/-- C3 witness: the clamp theorem applied to a concrete thrusting ship
at heading 0 with velocity (6, 0): post-thrust speed 6.2 exceeds 5, the
pre-drag speed is clamped to 5, and the post-drag speed is 4.975. -/
theorem ship_update_clamp_witness :
    Real.sqrt ((Ship.update ⟨100, 100, 0, 6, 0, 0, 1, false, 0, 0⟩).velocity_x ^ 2 +
      (Ship.update ⟨100, 100, 0, 6, 0, 0, 1, false, 0, 0⟩).velocity_y ^ 2) =
      MAX_VELOCITY * (1 - SHIP_DRAG) := by
  have hangle : pymod ((⟨100, 100, 0, 6, 0, 0, 1, false, 0, 0⟩ : Ship).angle +
      (((⟨100, 100, 0, 6, 0, 0, 1, false, 0, 0⟩ : Ship).rotation : ℝ)) *
        SHIP_ROTATION_SPEED) 360 = 0 := by
    rw [show (⟨100, 100, 0, 6, 0, 0, 1, false, 0, 0⟩ : Ship).angle +
        (((⟨100, 100, 0, 6, 0, 0, 1, false, 0, 0⟩ : Ship).rotation : ℝ)) *
          SHIP_ROTATION_SPEED = 0 by push_cast [SHIP_ROTATION_SPEED]; norm_num]
    exact pymod_eq_self le_rfl (by norm_num)
  have htv : thrustVelocity ⟨100, 100, 0, 6, 0, 0, 1, false, 0, 0⟩
      (pymod ((⟨100, 100, 0, 6, 0, 0, 1, false, 0, 0⟩ : Ship).angle +
        (((⟨100, 100, 0, 6, 0, 0, 1, false, 0, 0⟩ : Ship).rotation : ℝ)) *
          SHIP_ROTATION_SPEED) 360) = (6.2, 0) := by
    rw [hangle]
    unfold thrustVelocity
    rw [show (0:ℝ) * Real.pi / 180 = 0 by ring, Real.cos_zero, Real.sin_zero]
    norm_num [SHIP_SPEED]
  have h := ship_update_clamp ⟨100, 100, 0, 6, 0, 0, 1, false, 0, 0⟩
    (by norm_num)
    (by
      rw [htv]
      rw [show ((6.2:ℝ), (0:ℝ)).1 ^ 2 + ((6.2:ℝ), (0:ℝ)).2 ^ 2 = 6.2 ^ 2 by norm_num,
        Real.sqrt_sq (by norm_num)]
      norm_num [MAX_VELOCITY])
  exact h.2.1

/-- C3 counterexample: a ship with speed 6 and no thrust is never
clamped — after one physics tick its speed is 6 · (1 − 0.005) = 5.97,
still above `MAX_VELOCITY` = 5, refuting the claim for
`thrust_command = 0`. -/
theorem ship_update_no_clamp_without_thrust :
    Real.sqrt ((Ship.update ⟨100, 100, 0, 6, 0, 0, 0, false, 0, 0⟩).velocity_x ^ 2 +
      (Ship.update ⟨100, 100, 0, 6, 0, 0, 0, false, 0, 0⟩).velocity_y ^ 2) = 5.97 ∧
    ¬ Real.sqrt ((Ship.update ⟨100, 100, 0, 6, 0, 0, 0, false, 0, 0⟩).velocity_x ^ 2 +
      (Ship.update ⟨100, 100, 0, 6, 0, 0, 0, false, 0, 0⟩).velocity_y ^ 2) ≤
        MAX_VELOCITY := by
  obtain ⟨hx, hy⟩ := ship_update_velocity ⟨100, 100, 0, 6, 0, 0, 0, false, 0, 0⟩
  rw [if_neg (by norm_num)] at hx hy
  have hs : Real.sqrt
      ((Ship.update ⟨100, 100, 0, 6, 0, 0, 0, false, 0, 0⟩).velocity_x ^ 2 +
        (Ship.update ⟨100, 100, 0, 6, 0, 0, 0, false, 0, 0⟩).velocity_y ^ 2) = 5.97 := by
    rw [hx, hy]
    norm_num [SHIP_DRAG]
    rw [show (356409:ℝ) = 597 ^ 2 by norm_num, show (10000:ℝ) = 100 ^ 2 by norm_num,
      Real.sqrt_sq (by norm_num), Real.sqrt_sq (by norm_num)]
  exact ⟨hs, by rw [hs]; norm_num [MAX_VELOCITY]⟩

/-- C8, corrected: a non-small parent yields one child per random draw
(the source draws 2 or 3), every child is exactly one size tier down
(large→medium, medium→small, strictly smaller rank), a small parent
yields no children, and every child's spawn offset from the parent is at
most `size/2` *per axis* (so a child can be up to `size/2·√2` away in
Euclidean distance, not `size/2` as claimed — see the counterexample). -/
theorem break_apart_law (a : Asteroid) (draws : List FragmentDraw)
    (hlen2 : 2 ≤ draws.length) (hlen3 : draws.length ≤ 3) :
    (a.size_category = SizeCategory.small → a.break_apart draws = []) ∧
    (a.size_category ≠ SizeCategory.small →
      ((a.break_apart draws).length = draws.length ∧
        (2 ≤ (a.break_apart draws).length ∧ (a.break_apart draws).length ≤ 3)) ∧
      ∀ c ∈ a.break_apart draws,
        catRank c.size_category < catRank a.size_category ∧
        (a.size_category = SizeCategory.large → c.size_category = SizeCategory.medium) ∧
        (a.size_category = SizeCategory.medium → c.size_category = SizeCategory.small)) ∧
    ((∀ d ∈ draws, |d.offset_x| ≤ asteroidSize a.size_category / 2 ∧
                   |d.offset_y| ≤ asteroidSize a.size_category / 2) →
      ∀ c ∈ a.break_apart draws,
        |c.x - a.x| ≤ asteroidSize a.size_category / 2 ∧
        |c.y - a.y| ≤ asteroidSize a.size_category / 2) := by
  refine ⟨fun hsmall => by unfold Asteroid.break_apart; rw [if_pos hsmall], ?_, ?_⟩
  · intro hsmall
    unfold Asteroid.break_apart
    rw [if_neg hsmall]
    refine ⟨⟨List.length_map _ _, ?_⟩, ?_⟩
    · rw [List.length_map]
      exact ⟨hlen2, hlen3⟩
    · intro c hc
      obtain ⟨d, -, hd⟩ := List.mem_map.mp hc
      have hcat : c.size_category =
          (if a.size_category = SizeCategory.medium
            then SizeCategory.small else SizeCategory.medium) := by
        rw [← hd]
      cases ha : a.size_category with
      | small => exact absurd ha hsmall
      | medium =>
          rw [ha, if_pos rfl] at hcat
          exact ⟨by rw [hcat]; decide, fun hl => absurd hl (by decide), fun _ => hcat⟩
      | large =>
          rw [ha, if_neg (by decide)] at hcat
          exact ⟨by rw [hcat]; decide, fun _ => hcat, fun hm => absurd hm (by decide)⟩
  · intro hdraws c hc
    unfold Asteroid.break_apart at hc
    by_cases hsmall : a.size_category = SizeCategory.small
    · rw [if_pos hsmall] at hc
      cases hc
    · rw [if_neg hsmall] at hc
      obtain ⟨d, hdm, hd⟩ := List.mem_map.mp hc
      obtain ⟨hox, hoy⟩ := hdraws d hdm
      constructor
      · rw [← hd]
        simpa using hox
      · rw [← hd]
        simpa using hoy

/-- C8 witness: the fragmentation theorem applied to a concrete large
parent with two concrete draws, giving exactly two children. -/
theorem break_apart_law_witness :
    (Asteroid.break_apart ⟨500, 500, 1, 0, SizeCategory.large⟩
      [⟨5, -5, 0.1, 0⟩, ⟨0, 0, 0, 0⟩]).length = 2 := by
  have h := break_apart_law ⟨500, 500, 1, 0, SizeCategory.large⟩
    [⟨5, -5, 0.1, 0⟩, ⟨0, 0, 0, 0⟩] (by simp) (by simp)
  exact ((h.2.1 (by decide)).1.1).trans rfl

/-- C8 counterexample: a large asteroid at (500, 500) with velocity
(1, 0), with both per-fragment offsets drawn at the extreme (20, 20)
(legal draws of `uniform(-20, 20)`), spawns both children at (520, 520),
whose torus distance from (500, 500) is √800 ≈ 28.3 > 20 = size/2 —
refuting the claim that every child lies within `size_large/2` of the
parent. -/
theorem break_apart_child_outside_radius :
    Asteroid.break_apart ⟨500, 500, 1, 0, SizeCategory.large⟩
        [⟨20, 20, 0, 0⟩, ⟨20, 20, 0, 0⟩] =
      [⟨520, 520, 0.8, 0, SizeCategory.medium⟩,
       ⟨520, 520, 0.8, 0, SizeCategory.medium⟩] ∧
    get_distance 520 520 500 500 > asteroidSize SizeCategory.large / 2 := by
  constructor
  · unfold Asteroid.break_apart
    rw [if_neg (by decide)]
    simp only [List.map]
    norm_num
    decide
  · unfold get_distance
    rw [show asteroidSize SizeCategory.large / 2 = (20:ℝ) by
      unfold asteroidSize; norm_num]
    rw [show (min |(520:ℝ) - 500| (SCREEN_WIDTH - |(520:ℝ) - 500|)) ^ 2 +
        (min |(520:ℝ) - 500| (SCREEN_HEIGHT - |(520:ℝ) - 500|)) ^ 2 = 800 by
      norm_num [SCREEN_WIDTH, SCREEN_HEIGHT]]
    rw [gt_iff_lt, Real.lt_sqrt (by norm_num)]
    norm_num

/-- Helper: evaluate a square root of a numeral that is a perfect
square. -/
theorem sqrt_num_eq {x r : ℝ} (h : x = r ^ 2) (hr : 0 ≤ r) : Real.sqrt x = r := by
  rw [h, Real.sqrt_sq hr]

/-- Helper: torus distance between (100,100) and (140,100) is 40. -/
theorem gd_ex1 : get_distance 100 100 140 100 = 40 := by
  unfold get_distance
  norm_num [SCREEN_WIDTH, SCREEN_HEIGHT]
  exact sqrt_num_eq (by norm_num) (by norm_num)

/-- Helper: torus distance between (100,100) and (200,100) is 100. -/
theorem gd_ex2 : get_distance 100 100 200 100 = 100 := by
  unfold get_distance
  norm_num [SCREEN_WIDTH, SCREEN_HEIGHT]
  exact sqrt_num_eq (by norm_num) (by norm_num)

/-- Helper: torus distance between (220,100) and (20,100) is 200. -/
theorem gd_ex3 : get_distance 220 100 20 100 = 200 := by
  unfold get_distance
  norm_num [SCREEN_WIDTH, SCREEN_HEIGHT]
  exact sqrt_num_eq (by norm_num) (by norm_num)

/-- Helper: sizes are nonnegative. -/
theorem asteroidSize_nonneg (c : SizeCategory) : 0 ≤ asteroidSize c := by
  cases c <;> norm_num [asteroidSize]

/-- C2, corrected: when the horizon-ahead wrapped positions are within
`SHIP_SIZE + size_asteroid` of each other (torus distance), the
predictor reports `will_collide = true` with a finite time-to-collision
(never the infinity sentinel) — *provided it returns at all*: if the
relative speed is not below 0.01 and the current torus distance equals
the size sum exactly, the source instead raises an uncaught
`ZeroDivisionError` (the `none` result). Moreover the finite
time-to-collision is not in general at most the horizon (see the
counterexample, where it is 90 > 60). -/
theorem predict_collision_sound (s : Ship) (a : Asteroid) (t : ℕ)
    (h : futureDistance s a t < SHIP_SIZE + asteroidSize a.size_category) :
    ((Real.sqrt ((a.velocity_x - s.velocity_x) ^ 2 +
        (a.velocity_y - s.velocity_y) ^ 2) < 0.01 ∨
      get_distance s.x s.y a.x a.y -
        (SHIP_SIZE + asteroidSize a.size_category) ≠ 0) →
      ∃ r : ℝ, predict_collision s a t = some (true, some r)) ∧
    ((¬ Real.sqrt ((a.velocity_x - s.velocity_x) ^ 2 +
        (a.velocity_y - s.velocity_y) ^ 2) < 0.01 ∧
      get_distance s.x s.y a.x a.y -
        (SHIP_SIZE + asteroidSize a.size_category) = 0) →
      predict_collision s a t = none) := by
  have h10 : futureDistance s a t < SHIP_SIZE + asteroidSize a.size_category + 10 :=
    lt_of_lt_of_le h (by norm_num)
  unfold predict_collision
  rw [if_pos h10]
  constructor
  · rintro (hrel | hden)
    · rw [if_pos hrel]
      exact ⟨_, rfl⟩
    · by_cases hrel : Real.sqrt ((a.velocity_x - s.velocity_x) ^ 2 +
          (a.velocity_y - s.velocity_y) ^ 2) < 0.01
      · rw [if_pos hrel]
        exact ⟨_, rfl⟩
      · rw [if_neg hrel, if_neg hden]
        exact ⟨_, rfl⟩
  · rintro ⟨hrel, hden⟩
    rw [if_neg hrel, if_pos hden]

/-- Helper: the future distance in the C2 witness scenario (two
stationary bodies 20 apart) is 20. -/
theorem futureDistance_witness_eval :
    futureDistance ⟨100, 100, 0, 0, 0, 0, 0, false, 0, 0⟩
      ⟨120, 100, 0, 0, SizeCategory.large⟩ 60 = 20 := by
  unfold futureDistance futureCoord wrapCoord get_distance
  norm_num [SCREEN_WIDTH, SCREEN_HEIGHT]
  exact sqrt_num_eq (by norm_num) (by norm_num)

/-- Helper: torus distance between (100,100) and (160,100) is 60. -/
theorem gd_ex4 : get_distance 100 100 160 100 = 60 := by
  unfold get_distance
  norm_num [SCREEN_WIDTH, SCREEN_HEIGHT]
  exact sqrt_num_eq (by norm_num) (by norm_num)

/-- Helper: the future distance in the C2 crash scenario (stationary
ship at (100,100), large asteroid at (160,100) moving left at 1/tick,
horizon 60: both future positions are (100,100)) is 0. -/
theorem futureDistance_crash_eval :
    futureDistance ⟨100, 100, 0, 0, 0, 0, 0, false, 0, 0⟩
      ⟨160, 100, -1, 0, SizeCategory.large⟩ 60 = 0 := by
  unfold futureDistance futureCoord wrapCoord get_distance
  norm_num [SCREEN_WIDTH, SCREEN_HEIGHT]

/-- C2 witness: the soundness theorem applied twice at concrete inputs —
the return branch for a stationary ship at (100,100) and stationary
large asteroid at (120,100) (future distance 20 < 60, relative speed 0),
and the crash branch for the same ship against a large asteroid at
(160,100) with velocity (−1,0) (future distance 0 < 60, relative speed
1, current distance exactly 60 = size sum: `ZeroDivisionError`). -/
theorem predict_collision_sound_witness :
    (∃ r : ℝ, predict_collision ⟨100, 100, 0, 0, 0, 0, 0, false, 0, 0⟩
      ⟨120, 100, 0, 0, SizeCategory.large⟩ 60 = some (true, some r)) ∧
    predict_collision ⟨100, 100, 0, 0, 0, 0, 0, false, 0, 0⟩
      ⟨160, 100, -1, 0, SizeCategory.large⟩ 60 = none := by
  constructor
  · exact (predict_collision_sound ⟨100, 100, 0, 0, 0, 0, 0, false, 0, 0⟩
      ⟨120, 100, 0, 0, SizeCategory.large⟩ 60
      (by rw [futureDistance_witness_eval]; norm_num [SHIP_SIZE, asteroidSize])).1
      (Or.inl (by norm_num))
  · exact (predict_collision_sound ⟨100, 100, 0, 0, 0, 0, 0, false, 0, 0⟩
      ⟨160, 100, -1, 0, SizeCategory.large⟩ 60
      (by rw [futureDistance_crash_eval]; norm_num [SHIP_SIZE, asteroidSize])).2
      ⟨by
        rw [show ((⟨160, 100, -1, 0, SizeCategory.large⟩ : Asteroid).velocity_x -
            (⟨100, 100, 0, 0, 0, 0, 0, false, 0, 0⟩ : Ship).velocity_x) ^ 2 +
            ((⟨160, 100, -1, 0, SizeCategory.large⟩ : Asteroid).velocity_y -
            (⟨100, 100, 0, 0, 0, 0, 0, false, 0, 0⟩ : Ship).velocity_y) ^ 2 = 1 ^ 2 by
          norm_num, Real.sqrt_sq (by norm_num)]
        norm_num,
       by
        show get_distance 100 100 160 100 - _ = 0
        rw [gd_ex4]
        norm_num [SHIP_SIZE, asteroidSize]⟩

/-- Helper: the future distance in the C2 counterexample scenario
(stationary ship at (100,100), large asteroid at (200,100) moving left
at 1/tick, horizon 60) is 40. -/
theorem futureDistance_cex_eval :
    futureDistance ⟨100, 100, 0, 0, 0, 0, 0, false, 0, 0⟩
      ⟨200, 100, -1, 0, SizeCategory.large⟩ 60 = 40 := by
  unfold futureDistance futureCoord wrapCoord
  norm_num [SCREEN_WIDTH, SCREEN_HEIGHT]
  exact gd_ex1

/-- C2 counterexample: in that scenario the future wrapped distance is
40 < 60 = size sum (so the claim's hypothesis holds), yet the returned
time-to-collision is 60·(100−40)/(100−60) = 90 > 60: it exceeds the
horizon, refuting the claimed `≤ horizon` bound. -/
theorem predict_collision_ttc_exceeds_horizon :
    futureDistance ⟨100, 100, 0, 0, 0, 0, 0, false, 0, 0⟩
        ⟨200, 100, -1, 0, SizeCategory.large⟩ 60 <
      SHIP_SIZE + asteroidSize SizeCategory.large ∧
    predict_collision ⟨100, 100, 0, 0, 0, 0, 0, false, 0, 0⟩
        ⟨200, 100, -1, 0, SizeCategory.large⟩ 60 = some (true, some 90) ∧
    ¬ ((90:ℝ) ≤ 60) := by
  refine ⟨by rw [futureDistance_cex_eval]; norm_num [SHIP_SIZE, asteroidSize], ?_, by norm_num⟩
  simp only [predict_collision, futureDistance_cex_eval]
  norm_num [SHIP_SIZE, asteroidSize, gd_ex2]

/-- Helper: the future distance in the C1 scenario (ship at (100,100)
with velocity (2,0), asteroid at (140,100) with velocity (-2,0),
horizon 60): the bodies have passed each other, and their extrapolated
wrapped positions (220,100) and (20,100) are 200 apart. -/
theorem futureDistance_c1_eval (c : SizeCategory) :
    futureDistance ⟨100, 100, 0, 2, 0, 0, 0, false, 0, 0⟩
      ⟨140, 100, -2, 0, c⟩ 60 = 200 := by
  unfold futureDistance futureCoord wrapCoord
  norm_num [SCREEN_WIDTH, SCREEN_HEIGHT]
  exact gd_ex3

/-- Helper: in the C1 scenario the predictor reports no collision (200
is at least the threshold `20 + size + 10` for every size category), so
it returns normally with `will_collide = false` and the infinity
sentinel. -/
theorem predict_c1_eval (c : SizeCategory) :
    predict_collision ⟨100, 100, 0, 2, 0, 0, 0, false, 0, 0⟩
      ⟨140, 100, -2, 0, c⟩ 60 = some (false, none) := by
  simp only [predict_collision, futureDistance_c1_eval]
  rw [if_neg (by cases c <;> norm_num [SHIP_SIZE, asteroidSize])]

/-- C1, corrected: in the spec's scenario the dangerous-body scan
returns the empty list (normally, with no exception), not the asteroid:
`predict_collision` only compares the positions exactly at the horizon,
where the two bodies have already passed through each other (future
distance 200 ≥ every collision threshold), so `will_collide` is false
for every asteroid size category and nothing is reported. -/
theorem find_dangerous_c1_empty (c : SizeCategory) :
    find_dangerous_asteroids ⟨100, 100, 0, 2, 0, 0, 0, false, 0, 0⟩
      [⟨140, 100, -2, 0, c⟩] 150 60 = some [] := by
  unfold find_dangerous_asteroids
  simp only [scanAsteroids, gd_ex1, predict_c1_eval]
  norm_num

/-- C1 counterexample: the concrete instance of the scenario with a
large asteroid — the scan returns `some []`, contradicting the claim
that it returns exactly that one asteroid with a finite
time-to-collision. -/
theorem find_dangerous_c1_empty_large :
    find_dangerous_asteroids ⟨100, 100, 0, 2, 0, 0, 0, false, 0, 0⟩
      [⟨140, 100, -2, 0, SizeCategory.large⟩] 150 60 = some [] ∧
    ∀ l, find_dangerous_asteroids ⟨100, 100, 0, 2, 0, 0, 0, false, 0, 0⟩
      [⟨140, 100, -2, 0, SizeCategory.large⟩] 150 60 = some l → l.length ≠ 1 := by
  have h : find_dangerous_asteroids ⟨100, 100, 0, 2, 0, 0, 0, false, 0, 0⟩
      [⟨140, 100, -2, 0, SizeCategory.large⟩] 150 60 = some [] := by
    unfold find_dangerous_asteroids
    simp only [scanAsteroids, gd_ex1, predict_c1_eval SizeCategory.large]
    norm_num
  refine ⟨h, fun l hl => ?_⟩
  rw [h] at hl
  obtain rfl : ([] : List (Asteroid × ℝ × Option ℝ)) = l := Option.some.inj hl
  simp

/-- Helper: changing the current heading by `δ` shifts the normalized
angular difference by `-δ`, as long as the shifted representative stays
inside one period. -/
theorem angleDiff_shift_small (c t δ : ℝ)
    (h0 : 0 ≤ pymod (t - c + 180) 360 - δ)
    (h1 : pymod (t - c + 180) 360 - δ < 360) :
    angleDiff (c + δ) t = angleDiff c t - δ := by
  unfold angleDiff
  have hdec := pymod_decompose (t - c + 180) 360
  have harg : t - (c + δ) + 180 =
      (pymod (t - c + 180) 360 - δ) +
        360 * ((Int.floor ((t - c + 180) / 360) : ℤ) : ℝ) := by
    linarith [hdec]
  rw [harg, pymod_add_int_mul, pymod_eq_self h0 h1]
  ring

/-- C7: `steer(h, h) = 0` for every heading; whenever the normalized
angular difference is inside the 5° tolerance the command is 0, and
otherwise the returned nonzero command rotates the heading by one
rotation step (3°) in the direction that shrinks the absolute
normalized difference by exactly 3 — never the longer way around. -/
theorem get_steering_direction_shortest :
    (∀ h : ℝ, get_steering_direction h h = 0) ∧
    ∀ c t : ℝ,
      (|angleDiff c t| < 5 → get_steering_direction c t = 0) ∧
      (5 ≤ |angleDiff c t| →
        get_steering_direction c t ≠ 0 ∧
        |angleDiff (c + (get_steering_direction c t : ℝ) * SHIP_ROTATION_SPEED) t| =
          |angleDiff c t| - 3 ∧
        |angleDiff (c + (get_steering_direction c t : ℝ) * SHIP_ROTATION_SPEED) t| <
          |angleDiff c t|) := by
  have hsum : ∀ c t : ℝ, pymod (t - c + 180) 360 = angleDiff c t + 180 := by
    intro c t
    unfold angleDiff
    ring
  constructor
  · intro h
    have hself : angleDiff h h = 0 := by
      unfold angleDiff
      rw [show h - h + 180 = (180:ℝ) by ring,
        pymod_eq_self (by norm_num) (by norm_num)]
      norm_num
    simp only [get_steering_direction, hself]
    norm_num
  · intro c t
    obtain ⟨hp0, hp1⟩ := pymod_bounds (by norm_num : (0:ℝ) < 360) (t - c + 180)
    refine ⟨fun hlt => ?_, fun hge => ?_⟩
    · simp only [get_steering_direction]
      rw [if_pos hlt]
    · have hnot : ¬ |angleDiff c t| < 5 := not_lt.mpr hge
      by_cases hpos : angleDiff c t > 0
      · have hd5 : 5 ≤ angleDiff c t := by rwa [abs_of_pos hpos] at hge
        have hgsd : get_steering_direction c t = 1 := by
          simp only [get_steering_direction]
          rw [if_neg hnot, if_pos hpos]
        rw [hgsd, show ((1:ℤ):ℝ) * SHIP_ROTATION_SPEED = 3 by
          norm_num [SHIP_ROTATION_SPEED]]
        have heq : angleDiff (c + 3) t = angleDiff c t - 3 := by
          apply angleDiff_shift_small
          · rw [hsum]; linarith
          · rw [hsum] at hp1 ⊢; linarith
        rw [heq, abs_of_pos (by linarith : (0:ℝ) < angleDiff c t - 3),
          abs_of_pos hpos]
        exact ⟨by decide, rfl, by linarith⟩
      · have hd5 : angleDiff c t ≤ -5 := by
          push_neg at hpos
          rw [abs_of_nonpos hpos] at hge
          linarith
        have hgsd : get_steering_direction c t = -1 := by
          simp only [get_steering_direction]
          rw [if_neg hnot, if_neg hpos]
        rw [hgsd, show ((-1:ℤ):ℝ) * SHIP_ROTATION_SPEED = -3 by
          norm_num [SHIP_ROTATION_SPEED]]
        have heq : angleDiff (c + -3) t = angleDiff c t - -3 := by
          apply angleDiff_shift_small
          · rw [hsum] at hp0 ⊢; linarith
          · rw [hsum]; linarith
        rw [heq]
        have habs1 : |angleDiff c t - -3| = -(angleDiff c t) - 3 := by
          rw [abs_of_neg (by linarith : angleDiff c t - -3 < 0)]
          ring
        have habs2 : |angleDiff c t| = -(angleDiff c t) :=
          abs_of_neg (by linarith)
        rw [habs1, habs2]
        exact ⟨by decide, by ring, by linarith⟩

/-- C7 witness: the steering theorem applied at concrete headings —
`steer 0 0 = 0`, and at a 90° difference the command is nonzero and
shrinks the difference. -/
theorem get_steering_direction_shortest_witness :
    get_steering_direction 0 0 = 0 ∧ get_steering_direction 0 90 ≠ 0 := by
  have hd : angleDiff 0 90 = 90 := by
    unfold angleDiff
    rw [show (90:ℝ) - 0 + 180 = 270 by norm_num,
      pymod_eq_self (by norm_num) (by norm_num)]
    norm_num
  exact ⟨get_steering_direction_shortest.1 0,
    ((get_steering_direction_shortest.2 0 90).2 (by rw [hd]; norm_num)).1⟩

/-- Helper: unfolding equation for `update_delivery_zones` on a
non-empty zone list. -/
theorem update_delivery_zones_cons (z : DeliveryZone) (rest : List DeliveryZone)
    (ships : List (Ship × Bool)) :
    update_delivery_zones (z :: rest) ships =
      (if z.update.is_expired
        then update_delivery_zones rest (interactShips z.update ships)
        else ((z.update :: (update_delivery_zones rest (interactShips z.update ships)).1),
              (update_delivery_zones rest (interactShips z.update ships)).2)) := rfl

/-- C6, corrected: `update_delivery_zones` removes a zone on exactly the
tick its countdown reaches 0 — the surviving list is precisely the
decremented zones that are not yet expired, so every surviving zone has
`active_time ≥ 1`. However, the interaction check still runs for the
expired zone during that same removal pass (see the counterexample), so
a ship *can* complete one successful interaction with an expired zone on
its expiry tick; only from the next tick onward is interaction
impossible (the zone is no longer in the list). -/
theorem update_delivery_zones_removes_expired (zones : List DeliveryZone)
    (ships : List (Ship × Bool)) :
    (update_delivery_zones zones ships).1 =
      (zones.map DeliveryZone.update).filter (fun z => ! z.is_expired) ∧
    ∀ z ∈ (update_delivery_zones zones ships).1, 1 ≤ z.active_time := by
  have hmain : ∀ (zs : List DeliveryZone) (sh : List (Ship × Bool)),
      (update_delivery_zones zs sh).1 =
        (zs.map DeliveryZone.update).filter (fun z => ! z.is_expired) := by
    intro zs
    induction zs with
    | nil => intro sh; rfl
    | cons z rest ih =>
        intro sh
        rw [update_delivery_zones_cons]
        by_cases hexp : z.update.is_expired
        · rw [if_pos hexp, ih]
          simp [List.filter_cons, hexp]
        · rw [if_neg hexp]
          have hexp' : z.update.is_expired = false := by simpa using hexp
          simp only [List.map_cons, List.filter_cons, hexp']
          simp only [show ((!false) = true) = True by simp, if_pos trivial]
          rw [← ih (interactShips z.update sh)]
  refine ⟨hmain zones ships, ?_⟩
  intro z hz
  rw [hmain zones ships] at hz
  have hexp := List.of_mem_filter hz
  have hpos : ¬ (z.active_time ≤ 0) := by
    intro hle
    have hz' : z.is_expired = true := by
      unfold DeliveryZone.is_expired
      exact decide_eq_true hle
    rw [hz'] at hexp
    simp at hexp
  omega

/-- C6 witness: the removal theorem applied to a single fresh zone and
no ships — the surviving zone has a positive countdown. -/
theorem update_delivery_zones_removes_expired_witness :
    1 ≤ (⟨0, 0, ZoneType.dropoff, 99⟩ : DeliveryZone).active_time := by
  have h := (update_delivery_zones_removes_expired
    [⟨0, 0, ZoneType.dropoff, 100⟩] []).2
  apply h
  rw [(update_delivery_zones_removes_expired [⟨0, 0, ZoneType.dropoff, 100⟩] []).1]
  have hu : (⟨0, 0, ZoneType.dropoff, 100⟩ : DeliveryZone).update =
      ⟨0, 0, ZoneType.dropoff, 99⟩ := by
    unfold DeliveryZone.update
    norm_num
  simp only [List.map_cons, List.map_nil, hu]
  simp [List.filter, DeliveryZone.is_expired]

/-- Helper: a stationary cargo-free ship exactly on a pickup zone with
zero cooldown successfully interacts with it, regardless of the zone's
countdown. -/
theorem check_ship_interaction_center (t : ℤ) :
    check_ship_interaction ⟨100, 100, ZoneType.pickup, t⟩
        ⟨100, 100, 0, 0, 0, 0, 0, false, 0, 0⟩ =
      (true, ⟨100, 100, 0, 0, 0, 0, 0, true, 0, INTERACTION_COOLDOWN⟩) := by
  have hgd : get_distance 100 100 100 100 = 0 := by
    unfold get_distance
    norm_num [SCREEN_WIDTH, SCREEN_HEIGHT]
  unfold check_ship_interaction
  rw [if_neg (not_not_intro (by rw [hgd]; norm_num [ZONE_SIZE, SHIP_SIZE]))]
  rw [if_neg (by norm_num [MAX_PICKUP_VELOCITY])]
  rw [if_neg (by norm_num)]
  rw [if_pos ⟨rfl, rfl⟩]

/-- C6 counterexample: a pickup zone with `active_time = 1` expires and
is removed during `update_delivery_zones`, yet in the same pass the
stationary cargo-free ship sitting on it still completes a successful
pickup with the already-expired zone — its `has_cargo` flips to true —
refuting the claim that no successful interaction with an expired zone
can ever occur from the expiry tick on. -/
theorem update_delivery_zones_expired_tick_interaction :
    (DeliveryZone.update ⟨100, 100, ZoneType.pickup, 1⟩).is_expired = true ∧
    (check_ship_interaction (DeliveryZone.update ⟨100, 100, ZoneType.pickup, 1⟩)
      ⟨100, 100, 0, 0, 0, 0, 0, false, 0, 0⟩).1 = true ∧
    (update_delivery_zones [⟨100, 100, ZoneType.pickup, 1⟩]
      [(⟨100, 100, 0, 0, 0, 0, 0, false, 0, 0⟩, false)]).1 = [] ∧
    (update_delivery_zones [⟨100, 100, ZoneType.pickup, 1⟩]
      [(⟨100, 100, 0, 0, 0, 0, 0, false, 0, 0⟩, false)]).2 =
      [(⟨100, 100, 0, 0, 0, 0, 0, true, 0, INTERACTION_COOLDOWN⟩, false)] := by
  have hupd : DeliveryZone.update ⟨100, 100, ZoneType.pickup, 1⟩ =
      ⟨100, 100, ZoneType.pickup, 0⟩ := by
    unfold DeliveryZone.update
    norm_num
  have hexp : (DeliveryZone.update ⟨100, 100, ZoneType.pickup, 1⟩).is_expired = true := by
    rw [hupd]
    decide
  refine ⟨hexp, ?_, ?_, ?_⟩
  · rw [hupd, check_ship_interaction_center]
  · rw [update_delivery_zones_cons, if_pos hexp]
    rfl
  · rw [update_delivery_zones_cons, if_pos hexp]
    show interactShips (DeliveryZone.update ⟨100, 100, ZoneType.pickup, 1⟩)
        [(⟨100, 100, 0, 0, 0, 0, 0, false, 0, 0⟩, false)] = _
    rw [hupd]
    simp [interactShips, check_ship_interaction_center]

/-- C10 counterexample: the internal distance of
`calculate_approach_vector` is *not* bounded by 180·√2 ≈ 254.6: for a
ship at x = 0 and a target at x = 1500 (both in bounds) the per-axis
term `min(|d|, 360 − |d|)` is the *negative* value −1140, whose square
dominates, giving an internal distance of 1140 > 180·√2. -/
theorem approach_distance_unbounded :
    approach_distance 0 100 1500 100 = 1140 ∧
    180 * Real.sqrt 2 < 1140 := by
  constructor
  · unfold approach_distance
    norm_num
    exact sqrt_num_eq (by norm_num) (by norm_num)
  · have h2 : Real.sqrt 2 ≤ 2 := by
      have h4 : Real.sqrt 2 ≤ Real.sqrt 4 := Real.sqrt_le_sqrt (by norm_num)
      rwa [sqrt_num_eq (show (4:ℝ) = 2 ^ 2 by norm_num) (by norm_num)] at h4
    nlinarith [Real.sqrt_nonneg 2]

/-- C10, corrected: the distance used by `calculate_approach_vector` is
computed with a fixed per-axis extent of 360 instead of the 1600×1200
screen (see `approach_distance`); it is not bounded by 180·√2 (the
per-axis min can be negative — see the counterexample), but the claimed
consequence does hold: a ship at (100,100) with speed 1.1 and a target
at (460,460) — true torus distance 360·√2 ≈ 509 > 500 — has internal
distance 0 < 50, so the function takes the "close to target, slow down"
branch and returns zero thrust. -/
theorem approach_vector_close_branch_despite_far :
    get_distance 100 100 460 460 > 500 ∧
    approach_distance 100 100 460 460 = 0 ∧
    Real.sqrt ((1.1:ℝ) ^ 2 + (0:ℝ) ^ 2) > 1 ∧
    (calculate_approach_vector ⟨100, 100, 0, 1.1, 0, 0, 0, false, 0, 0⟩
      460 460 1).2 = 0 := by
  have hd : approach_distance (100:ℝ) 100 460 460 = 0 := by
    unfold approach_distance
    norm_num
  have hs : Real.sqrt ((1.1:ℝ) ^ 2 + (0:ℝ) ^ 2) = 1.1 :=
    sqrt_num_eq (by norm_num) (by norm_num)
  refine ⟨?_, hd, by rw [hs]; norm_num, ?_⟩
  · unfold get_distance
    rw [show (min |(100:ℝ) - 460| (SCREEN_WIDTH - |(100:ℝ) - 460|)) ^ 2 +
        (min |(100:ℝ) - 460| (SCREEN_HEIGHT - |(100:ℝ) - 460|)) ^ 2 = 259200 by
      norm_num [SCREEN_WIDTH, SCREEN_HEIGHT]]
    rw [gt_iff_lt, Real.lt_sqrt (by norm_num)]
    norm_num
  · simp only [calculate_approach_vector, hd, hs]
    rw [if_neg (by norm_num), if_pos ⟨by norm_num, by norm_num⟩]

/-- C1 witness: the scan theorem instantiated at the medium size
category. -/
theorem find_dangerous_c1_empty_witness :
    find_dangerous_asteroids ⟨100, 100, 0, 2, 0, 0, 0, false, 0, 0⟩
      [⟨140, 100, -2, 0, SizeCategory.medium⟩] 150 60 = some [] :=
  find_dangerous_c1_empty SizeCategory.medium
